import Mathlib

/-
Verification of the QR pairing-session route (src/qr.js) against its
natural-language specification.

The route's behaviour is embedded shallowly:
* the per-request mutable state (`qrSent`, `connectionSuccess`,
  `res.headersSent`, the response writes, the session directory, the
  scheduled timers) becomes an explicit record `St`;
* each firing of the `connection.update` handler branches and of the
  60-second cleanup timer becomes one step of a transition function
  `step : St → Ev → St`.  The close branch, the open branch and the
  timer callback are fully synchronous in the source, so a step is
  exact for them; the qr branch, which suspends at its render await
  between setting `qrSent` and writing the response, is additionally
  given a refined machine (`St2`, `step2`) whose events separate the
  branch's synchronous prefix from its continuation, so firings of the
  other handlers during the await are expressible — the response
  exactly-once analysis (C1) is carried out on that refined machine;
* `sendWelcomeMessages` becomes a pure function from its inputs (the
  fallback JID argument, the socket user visible at call time, whether
  `creds.json` exists, and an oracle saying which sends succeed) to a
  record of what it attempted, whether it scheduled the 15-second
  cleanup timer, and whether it logged an error.

External collaborators (Baileys, Express, the QR renderer) appear only
through the values they hand the handlers: the rendered image (or a
rendering failure) is the payload of the `qr` event, the close status
code is the payload of the `closed` event, and `jidNormalizedUser` is
modelled as a pure renaming since no property depends on its output.
-/

namespace QRRoute

/-! ## Constants from src/qr.js -/

/-- Baileys `DisconnectReason.loggedOut` status code. -/
def loggedOutCode : Nat := 401

/-- Delay of the reconnect scheduled in the close branch (line 128). -/
def reconnectDelayMs : Nat := 3000

/-- Delay before retrying `sendWelcomeMessages` when the user JID is not
yet available (line 106). -/
def jidRetryDelayMs : Nat := 5000

/-- Delay of the cleanup timer scheduled at the end of a fully successful
`sendWelcomeMessages` run (line 210). -/
def cleanupDelayMs : Nat := 15000

/-- Delay of the route-level auto-cleanup timer (line 144). -/
def qrTimeoutMs : Nat := 60000

/-- Line 28 of src/qr.js, translated literally.  The template literal
reads `session_\( {Date.now()}_ \){Math.random().toString(36).substr(2, 9)}`:
there is no interpolation marker anywhere in it, `\(` and `\)` are escape
sequences for plain parentheses and the rest is literal text, so the
timestamp and the random draw are both ignored and every request gets the
same constant string. -/
def mkSessionId (_nowMs : Nat) (_randomSuffix : String) : String :=
  "session_( \x7bDate.now()\x7d_ )\x7bMath.random().toString(36).substr(2, 9)\x7d"

/-- Line 29: the per-session directory under the sessions root. -/
def mkSessionDir (sessionId : String) : String :=
  "./qr_sessions/" ++ sessionId

/-- Message field of the success response (line 85). -/
def qrMessage : String := "Scan this QR code with WhatsApp → Linked Devices"

/-- Instructions array of the success response (lines 86-91). -/
def qrInstructions : List String :=
  ["Open WhatsApp on your phone",
   "Go to Settings → Linked Devices",
   "Tap \x27Link a Device\x27",
   "Point your camera at this QR code"]

/-- Body of the `res.json` call in the qr branch (lines 81-92). -/
structure SuccessBody where
  success : Bool
  qr : String
  sessionId : String
  message : String
  instructions : List String
  deriving DecidableEq, Repr

def mkSuccessBody (qrImage sessionId : String) : SuccessBody :=
  { success := true, qr := qrImage, sessionId := sessionId,
    message := qrMessage, instructions := qrInstructions }

/-! ## Response writes -/

/-- Which handler performed a write to `res`. -/
inductive Src
  | qrH
  | closeH
  | timeoutH
  deriving DecidableEq, Repr

/-- The four possible payloads written to `res` by the session handlers. -/
inductive Resp
  | okQr (body : SuccessBody)
  | errQrGen
  | errClosed
  | errTimeout
  deriving DecidableEq, Repr

/-- HTTP status carried by each write. -/
def Resp.status : Resp → Nat
  | .okQr _ => 200
  | .errQrGen => 500
  | .errClosed => 500
  | .errTimeout => 408

/-! ## Per-session state and events -/

/-- Per-request mutable state of the route handler, plus an audit trail
of externally visible effects (response writes, scheduled timers). -/
structure St where
  sessionId : String
  /-- the `qrSent` flag (line 38) -/
  qrSent : Bool
  /-- the `connectionSuccess` flag (line 39); the spec calls it `paired` -/
  connectionSuccess : Bool
  /-- `res.headersSent` -/
  headersSent : Bool
  /-- every write performed on `res`, in order, tagged by its source -/
  written : List (Src × Resp)
  /-- whether the session directory currently exists on disk -/
  sessionDirExists : Bool
  /-- whether `sock.end()` has been called -/
  sockEnded : Bool
  /-- delays of the `sock.ws.connect()` reconnects scheduled so far -/
  reconnects : List Nat
  /-- `sendWelcomeMessages` invocations scheduled so far:
  (delay in ms, the `fallbackJid` argument passed) -/
  welcome : List (Nat × Option String)
  deriving DecidableEq, Repr

/-- Events that drive the session: the three `connection.update` branches
(with the data the handler reads from the outside world) and the firing of
the 60-second cleanup timer.  A `qr` event carries `some img` when
`QRCode.toDataURL` succeeds with rendering `img`, and `none` when it
throws. -/
inductive Ev
  | qr (render : Option String)
  | opened (user : Option String)
  | closed (statusCode : Option Nat)
  | timeout
  deriving DecidableEq, Repr

def isOpenedEv : Ev → Bool
  | .opened _ => true
  | _ => false

def isQrEv : Ev → Bool
  | .qr _ => true
  | _ => false

/-- `jidNormalizedUser` from the external library: a pure normalization of
the raw id.  No verified property depends on its output value, so it is
modelled as the identity renaming. -/
def jidNormalizedUser (raw : String) : String := raw

/-- A write to `res`: it appends to the response log and sets
`headersSent` (Express sets it on the first — and, in the double-write
bug scenarios below, on every attempted — `res.json`). -/
def writeRes (s : St) (src : Src) (r : Resp) : St :=
  { s with written := s.written ++ [(src, r)], headersSent := true }

/-- One atomic firing of a handler, translated branch by branch from
lines 65-144 of src/qr.js:

* `qr render` — lines 68-97: if `qrSent` is already set the branch body is
  skipped entirely; otherwise `qrSent` is set first, then on rendering
  success `res.json({success, qr, sessionId, message, instructions})` is
  called unconditionally, and on rendering failure a 500 is written only
  if `!res.headersSent`.
* `opened user` — lines 99-110: set `connectionSuccess`; if the user id is
  not resolvable schedule `sendWelcomeMessages(sock, sessionDir)` (note:
  no third argument, so its `fallbackJid` parameter defaults to null)
  after 5000 ms, else call `sendWelcomeMessages(sock, sessionDir, userJid)`
  immediately (delay 0) with the normalized id as the `fallbackJid`
  argument.
* `closed statusCode` — lines 112-130: if the reason is `loggedOut` remove
  the session directory; then if `!connectionSuccess && !res.headersSent`
  write a 500; then if the reason is not `loggedOut` schedule
  `sock.ws.connect()` (the same handle's socket) after 3000 ms.
* `timeout` — lines 136-144: if `!connectionSuccess && !qrSent` write a
  408; then if `!connectionSuccess` call `sock.end()` and remove the
  session directory. -/
def step (s : St) : Ev → St
  | .qr render =>
    if s.qrSent then s
    else
      let s1 := { s with qrSent := true }
      match render with
      | some img => writeRes s1 .qrH (.okQr (mkSuccessBody img s1.sessionId))
      | none => if s1.headersSent then s1 else writeRes s1 .qrH .errQrGen
  | .opened user =>
    let s1 := { s with connectionSuccess := true }
    match user with
    | none => { s1 with welcome := s1.welcome ++ [(jidRetryDelayMs, none)] }
    | some u => { s1 with welcome := s1.welcome ++ [(0, some (jidNormalizedUser u))] }
  | .closed statusCode =>
    let s1 := if statusCode = some loggedOutCode then { s with sessionDirExists := false } else s
    let s2 := if !s1.connectionSuccess && !s1.headersSent then writeRes s1 .closeH .errClosed else s1
    if statusCode ≠ some loggedOutCode then { s2 with reconnects := s2.reconnects ++ [reconnectDelayMs] } else s2
  | .timeout =>
    let s1 := if !s.connectionSuccess && !s.qrSent then writeRes s .timeoutH .errTimeout else s
    if !s1.connectionSuccess then { s1 with sockEnded := true, sessionDirExists := false } else s1

/-- State right after a successful socket initialization: directory
created, both flags false, nothing written, no timers pending. -/
def initSt (sessionId : String) : St :=
  { sessionId := sessionId, qrSent := false, connectionSuccess := false,
    headersSent := false, written := [], sessionDirExists := true,
    sockEnded := false, reconnects := [], welcome := [] }

/-- Run a sequence of handler firings from the initial state. -/
def run (sessionId : String) (tr : List Ev) : St :=
  tr.foldl step (initSt sessionId)

/-! ## The onboarding pipeline (sendWelcomeMessages, lines 156-215) -/

/-- The four payloads the pipeline can send, in the order they appear in
the source: the persisted `creds.json` as a document, the fixed welcome
image with caption, the fixed welcome audio, and the fixed closing text. -/
inductive Payload
  | document
  | image
  | audio
  | text
  deriving DecidableEq, BEq, Repr

/-- The full ordered send sequence: the document only when `creds.json`
exists on disk, then image, audio, text. -/
def welcomeSequence (credsExists : Bool) : List Payload :=
  (if credsExists then [Payload.document] else []) ++
  [Payload.image, Payload.audio, Payload.text]

/-- Line 158: `fallbackJid || (sock.user?.id ? jidNormalizedUser(sock.user.id) : null)`. -/
def jidResolve (fallbackJid sockUser : Option String) : Option String :=
  match fallbackJid with
  | some j => some j
  | none =>
    match sockUser with
    | some u => some (jidNormalizedUser u)
    | none => none

/-- Observable outcome of one `sendWelcomeMessages` call. -/
structure PipelineResult where
  /-- the JID the sends were addressed to, `none` when resolution failed -/
  usedJid : Option String
  /-- the sends attempted, in order (the last one may have thrown) -/
  attempted : List Payload
  /-- delay of the cleanup timer, when one was scheduled -/
  cleanupAfterMs : Option Nat
  /-- whether the catch block logged a send failure -/
  errorLogged : Bool
  deriving DecidableEq, Repr

/-- `sendWelcomeMessages`, lines 156-215, as a function of its arguments
and of a send oracle (`sendOk p = false` models `sock.sendMessage`
throwing on payload `p`).  The body is one try/catch: the sends are
awaited sequentially, the first throw jumps to the catch (which only
logs), and the 15-second cleanup timer is scheduled on the line after the
last send — so only when every send succeeded.  When the JID is not
resolvable the function returns before sending anything. -/
def sendWelcomeMessages (fallbackJid sockUser : Option String) (credsExists : Bool)
    (sendOk : Payload → Bool) : PipelineResult :=
  match jidResolve fallbackJid sockUser with
  | none => { usedJid := none, attempted := [], cleanupAfterMs := none, errorLogged := false }
  | some j =>
    if credsExists && !sendOk .document then
      { usedJid := some j, attempted := [.document], cleanupAfterMs := none, errorLogged := true }
    else
      let pre := if credsExists then [Payload.document] else []
      if !sendOk .image then
        { usedJid := some j, attempted := pre ++ [.image], cleanupAfterMs := none, errorLogged := true }
      else if !sendOk .audio then
        { usedJid := some j, attempted := pre ++ [.image, .audio], cleanupAfterMs := none, errorLogged := true }
      else if !sendOk .text then
        { usedJid := some j, attempted := pre ++ [.image, .audio, .text], cleanupAfterMs := none, errorLogged := true }
      else
        { usedJid := some j, attempted := pre ++ [.image, .audio, .text],
          cleanupAfterMs := some cleanupDelayMs, errorLogged := false }

/-! ## The unhandled-rejection filter (lines 218-223) -/

/-- Does `needle` occur as a contiguous substring of the character list?
(the semantics of JavaScript `String.prototype.includes`). -/
def hasSubAux (needle : List Char) : List Char → Bool
  | [] => needle.isEmpty
  | c :: cs => needle.isPrefixOf (c :: cs) || hasSubAux needle cs

def strIncludes (s sub : String) : Bool :=
  hasSubAux sub.data s.data

/-- The process-wide `unhandledRejection` handler, lines 218-223, returning
the log lines it emits.  `errMessage` is `err?.message`; when the error or
its message is absent every `includes` check is falsy and the error is
logged. -/
def unhandledRejectionHandler (errMessage : Option String) : List String :=
  match errMessage with
  | some m =>
    if strIncludes m "rate-overlimit" || strIncludes m "conflict" || strIncludes m "timed out" then []
    else ["Unhandled Rejection:"]
  | none => ["Unhandled Rejection:"]

/-- The fixed set of known-benign substrings named by the spec: rate
limiting, protocol conflict, timeout. -/
def benignSubstrings : List String := ["rate-overlimit", "conflict", "timed out"]

/-- Modelled from the spec side for comparison: an error message matches
the known-benign set when it contains one of the fixed substrings. -/
def matchesBenign (errMessage : Option String) : Bool :=
  match errMessage with
  | some m => benignSubstrings.any (fun b => strIncludes m b)
  | none => false

/-! ## Helper lemmas -/

@[simp] lemma writeRes_sessionId (s : St) (src : Src) (r : Resp) :
    (writeRes s src r).sessionId = s.sessionId := rfl

@[simp] lemma writeRes_qrSent (s : St) (src : Src) (r : Resp) :
    (writeRes s src r).qrSent = s.qrSent := rfl

@[simp] lemma writeRes_connectionSuccess (s : St) (src : Src) (r : Resp) :
    (writeRes s src r).connectionSuccess = s.connectionSuccess := rfl

@[simp] lemma writeRes_headersSent (s : St) (src : Src) (r : Resp) :
    (writeRes s src r).headersSent = true := rfl

@[simp] lemma writeRes_written (s : St) (src : Src) (r : Resp) :
    (writeRes s src r).written = s.written ++ [(src, r)] := rfl

@[simp] lemma writeRes_sessionDirExists (s : St) (src : Src) (r : Resp) :
    (writeRes s src r).sessionDirExists = s.sessionDirExists := rfl

@[simp] lemma writeRes_sockEnded (s : St) (src : Src) (r : Resp) :
    (writeRes s src r).sockEnded = s.sockEnded := rfl

@[simp] lemma writeRes_reconnects (s : St) (src : Src) (r : Resp) :
    (writeRes s src r).reconnects = s.reconnects := rfl

@[simp] lemma writeRes_welcome (s : St) (src : Src) (r : Resp) :
    (writeRes s src r).welcome = s.welcome := rfl

/-- A state predicate preserved by every step holds after any run. -/
lemma foldl_inv {P : St → Prop} (hstep : ∀ s e, P s → P (step s e)) :
    ∀ (tr : List Ev) (s : St), P s → P (tr.foldl step s) := by
  intro tr
  induction tr with
  | nil => intro s hs; exact hs
  | cons e tr ih => intro s hs; exact ih (step s e) (hstep s e hs)

/-! ## C2 -/

/-- C2: the claim says every request gets a unique session id built from a
timestamp and a random suffix.  The code (line 28) in fact produces the
same constant string for every timestamp and every random suffix — the
template literal contains no interpolation — so every request also gets
the same session directory. -/
theorem C2_sessionId_constant (t1 t2 : Nat) (r1 r2 : String) :
    mkSessionId t1 r1 = mkSessionId t2 r2 ∧
    mkSessionDir (mkSessionId t1 r1) = mkSessionDir (mkSessionId t2 r2) :=
  ⟨rfl, rfl⟩

theorem C2_sessionId_constant_witness :
    mkSessionId 1759276800000 "k3j9q2m1z" = mkSessionId 1759276801000 "a1b2c3d4e" :=
  (C2_sessionId_constant 1759276800000 1759276801000 "k3j9q2m1z" "a1b2c3d4e").1

/-! ## C5 -/

/-- C5: on a close event with the logged-out status code the session
directory is removed and no reconnect is scheduled; on any other close
reason (including an absent status code) a reconnect on the same handle
is scheduled after the fixed 3000 ms delay and the directory is left
alone. -/
theorem C5_close_branch (s : St) (statusCode : Option Nat) :
    (statusCode = some loggedOutCode →
      (step s (.closed statusCode)).sessionDirExists = false ∧
      (step s (.closed statusCode)).reconnects = s.reconnects) ∧
    (statusCode ≠ some loggedOutCode →
      (step s (.closed statusCode)).reconnects = s.reconnects ++ [reconnectDelayMs] ∧
      (step s (.closed statusCode)).sessionDirExists = s.sessionDirExists) := by
  constructor
  · rintro rfl
    cases hc : s.connectionSuccess <;> cases hh : s.headersSent <;>
      simp [step, hc, hh]
  · intro h
    cases hc : s.connectionSuccess <;> cases hh : s.headersSent <;>
      simp [step, hc, hh, h]

theorem C5_close_branch_witness :
    (step (initSt "s") (.closed (some loggedOutCode))).sessionDirExists = false ∧
    (step (initSt "s") (.closed (some 515))).reconnects = [reconnectDelayMs] :=
  ⟨((C5_close_branch (initSt "s") (some loggedOutCode)).1 rfl).1,
   ((C5_close_branch (initSt "s") (some 515)).2 (by decide)).1⟩

/-! ## C6 -/

/-- C6: when the 60-second timer fires, if no pairing code was emitted and
pairing never succeeded the response is written with the 408 timeout
failure; and whenever pairing never succeeded — whether or not a code was
shown — the connection handle is ended and the session directory is
deleted.  (If pairing did succeed the timer firing changes nothing.) -/
theorem C6_timeout_branch (s : St) :
    (s.connectionSuccess = false → s.qrSent = false →
      (step s .timeout).written = s.written ++ [(Src.timeoutH, Resp.errTimeout)] ∧
      Resp.errTimeout.status = 408) ∧
    (s.connectionSuccess = false →
      (step s .timeout).sockEnded = true ∧
      (step s .timeout).sessionDirExists = false) ∧
    (s.connectionSuccess = true → step s .timeout = s) := by
  refine ⟨fun h1 h2 => ⟨?_, rfl⟩, fun h1 => ?_, fun h1 => ?_⟩
  · simp [step, h1, h2]
  · cases hq : s.qrSent <;> simp [step, h1, hq]
  · simp [step, h1]

theorem C6_timeout_branch_witness :
    (step (initSt "s") .timeout).written = [(Src.timeoutH, Resp.errTimeout)] ∧
    (step (initSt "s") .timeout).sockEnded = true ∧
    (step (initSt "s") .timeout).sessionDirExists = false :=
  ⟨((C6_timeout_branch (initSt "s")).1 rfl rfl).1,
   ((C6_timeout_branch (initSt "s")).2.1 rfl).1,
   ((C6_timeout_branch (initSt "s")).2.1 rfl).2⟩

/-! ## C9 -/

/-- C9: the unhandled-rejection handler is silent exactly on the errors
whose message contains one of the fixed known-benign substrings
(rate-overlimit, conflict, timed out); every other rejection — including
one with no message at all — is logged. -/
theorem C9_rejection_filter (errMessage : Option String) :
    unhandledRejectionHandler errMessage = [] ↔ matchesBenign errMessage = true := by
  cases errMessage with
  | none => simp [unhandledRejectionHandler, matchesBenign]
  | some m =>
    simp only [unhandledRejectionHandler, matchesBenign, benignSubstrings,
      List.any_cons, List.any_nil, Bool.or_false]
    by_cases h1 : strIncludes m "rate-overlimit" = true <;>
      by_cases h2 : strIncludes m "conflict" = true <;>
      by_cases h3 : strIncludes m "timed out" = true <;>
      simp_all

theorem C9_rejection_filter_witness :
    unhandledRejectionHandler (some "connection timed out after 60s") = [] ∧
    unhandledRejectionHandler (some "ECONNRESET") = ["Unhandled Rejection:"] := by
  refine ⟨(C9_rejection_filter (some "connection timed out after 60s")).mpr (by decide), ?_⟩
  decide

/-! ## C3 -/

/-- C3 counterexample: drive `sendWelcomeMessages` with a resolved JID,
an existing `creds.json`, and a send oracle on which the welcome-image
send throws.  The pipeline logs the failure and skips the audio and text
sends — but it schedules no 15-second cleanup timer, because the
`setTimeout` sits inside the try block after the last send.  The claim
that cleanup still proceeds on schedule fails here. -/
theorem C3_counterexample :
    (sendWelcomeMessages (some "user@s.whatsapp.net") none true
        (fun p => !decide (p = Payload.image))).errorLogged = true ∧
    (sendWelcomeMessages (some "user@s.whatsapp.net") none true
        (fun p => !decide (p = Payload.image))).attempted = [Payload.document, Payload.image] ∧
    (sendWelcomeMessages (some "user@s.whatsapp.net") none true
        (fun p => !decide (p = Payload.image))).cleanupAfterMs = none := by
  decide

/-- C3 (amended): if any onboarding send throws, the pipeline logs the
error and skips the remaining sends, but the 15-second cleanup timer is
NOT scheduled — the pipeline neither ends the connection handle nor
deletes the session directory on a partial failure.  The cleanup timer is
scheduled exactly when every send in the sequence succeeds. -/
theorem C3_amended_cleanup (fallbackJid sockUser : Option String) (credsExists : Bool)
    (sendOk : Payload → Bool) (j : String)
    (hj : jidResolve fallbackJid sockUser = some j) :
    (sendWelcomeMessages fallbackJid sockUser credsExists sendOk).cleanupAfterMs
      = (if (welcomeSequence credsExists).all sendOk then some cleanupDelayMs else none) ∧
    (sendWelcomeMessages fallbackJid sockUser credsExists sendOk).errorLogged
      = !(welcomeSequence credsExists).all sendOk ∧
    (sendWelcomeMessages fallbackJid sockUser credsExists sendOk).attempted
      <+: welcomeSequence credsExists := by
  cases credsExists <;>
    by_cases h1 : sendOk .document = true <;>
    by_cases h2 : sendOk .image = true <;>
    by_cases h3 : sendOk .audio = true <;>
    by_cases h4 : sendOk .text = true <;>
    simp_all [sendWelcomeMessages, welcomeSequence, hj]

theorem C3_amended_cleanup_witness :
    (sendWelcomeMessages (some "u@s.whatsapp.net") none true
        (fun p => !decide (p = Payload.audio))).cleanupAfterMs = none :=
  ((C3_amended_cleanup (some "u@s.whatsapp.net") none true
      (fun p => !decide (p = Payload.audio)) "u@s.whatsapp.net" rfl).1).trans (by decide)

/-! ## C7 -/

/-- C7 counterexample: when the connection opens with no resolvable user
id, exactly one `sendWelcomeMessages` retry is scheduled after 5000 ms,
but its `fallbackJid` argument is `none` — no fallback identity is
supplied (the third argument is simply omitted at line 106) — and if the
identity is still unresolvable when the retry runs, the retry aborts
without attempting a single send.  This refutes the claim that the
deferred attempt is made "using a fallback identity". -/
theorem C7_counterexample :
    (step (initSt "s") (.opened none)).welcome = [(jidRetryDelayMs, none)] ∧
    ((step (initSt "s") (.opened none)).welcome.countP (fun e => e.2.isSome)) = 0 ∧
    (∀ credsExists, (sendWelcomeMessages none none credsExists (fun _ => true)).attempted = []) := by
  refine ⟨by decide, by decide, fun credsExists => ?_⟩
  cases credsExists <;> decide

/-- C7 (amended): when the connection-established event fires, `paired`
(`connectionSuccess`) is set true; if the identity is not immediately
resolvable, onboarding is deferred by 5 seconds and attempted exactly
once more with no fallback identity supplied — the deferred call
re-resolves the identity from the connection handle at that later time,
and if it is still unresolvable it aborts without sending anything — and
no further retry is ever scheduled (no event other than
connection-established schedules an onboarding call); if the identity is
immediately resolvable, onboarding is invoked directly with the
normalized identity as its fallback argument. -/
theorem C7_amended_open_branch (s : St) (user : Option String) :
    (step s (.opened user)).connectionSuccess = true ∧
    (user = none →
      (step s (.opened user)).welcome = s.welcome ++ [(jidRetryDelayMs, none)]) ∧
    (∀ u, user = some u →
      (step s (.opened user)).welcome = s.welcome ++ [(0, some (jidNormalizedUser u))]) ∧
    (∀ sockUser credsExists sendOk, sockUser = none →
      (sendWelcomeMessages none sockUser credsExists sendOk).attempted = [] ∧
      (sendWelcomeMessages none sockUser credsExists sendOk).usedJid = none) ∧
    (∀ (s2 : St) (e : Ev), isOpenedEv e = false → (step s2 e).welcome = s2.welcome) := by
  refine ⟨?_, ?_, ?_, ?_, ?_⟩
  · cases user <;> simp [step]
  · rintro rfl; simp [step]
  · rintro u rfl; simp [step]
  · rintro sockUser credsExists sendOk rfl
    simp [sendWelcomeMessages, jidResolve]
  · intro s2 e he
    cases e with
    | qr r =>
      cases r <;> cases h1 : s2.qrSent <;> cases h2 : s2.headersSent <;>
        simp [step, h1, h2]
    | opened u => simp [isOpenedEv] at he
    | closed c =>
      by_cases hc : c = some loggedOutCode <;>
        cases h1 : s2.connectionSuccess <;> cases h2 : s2.headersSent <;>
        simp [step, hc, h1, h2]
    | timeout =>
      cases h1 : s2.connectionSuccess <;> cases h2 : s2.qrSent <;>
        simp [step, h1, h2]

theorem C7_amended_open_branch_witness :
    (step (initSt "s") (.opened none)).connectionSuccess = true ∧
    (step (initSt "s") (.opened none)).welcome = [(jidRetryDelayMs, none)] :=
  ⟨(C7_amended_open_branch (initSt "s") none).1,
   ((C7_amended_open_branch (initSt "s") none).2.1 rfl).trans (by decide)⟩

/-! ## Counting response writes -/

/-- Number of response writes performed by a given handler. -/
def srcCount (x : Src) (s : St) : Nat :=
  s.written.countP (fun p => decide (p.1 = x))

/-- Is a write the 200 success response carrying a QR image? -/
def okResp : Src × Resp → Bool :=
  fun p => match p.2 with | .okQr _ => true | _ => false

/-- Number of QR success responses written so far. -/
def okCount (s : St) : Nat :=
  s.written.countP okResp

/-- Number of firings of the 60-second timer in a trace. -/
def timeoutEvCount (tr : List Ev) : Nat :=
  tr.countP (fun e => decide (e = Ev.timeout))

/-- A step-preserved predicate restricted to traces of events satisfying Q. -/
lemma foldl_inv_cond {P : St → Prop} {Q : Ev → Prop}
    (hstep : ∀ s e, Q e → P s → P (step s e)) :
    ∀ (tr : List Ev) (s : St), (∀ e ∈ tr, Q e) → P s → P (tr.foldl step s) := by
  intro tr
  induction tr with
  | nil => intro s _ hs; exact hs
  | cons e tr ih =>
    intro s hq hs
    exact ih (step s e) (fun e' he' => hq e' (List.mem_cons_of_mem _ he'))
      (hstep s e (hq e (List.mem_cons_self _ _)) hs)

/-- The close handler writes only while `res.headersSent` is false, and a
write sets `headersSent`, so it writes at most once. -/
lemma invClose_step (s : St) (e : Ev)
    (h0 : s.headersSent = false → srcCount .closeH s = 0) (h1 : srcCount .closeH s ≤ 1) :
    ((step s e).headersSent = false → srcCount .closeH (step s e) = 0) ∧
    srcCount .closeH (step s e) ≤ 1 := by
  cases e with
  | qr r =>
    cases r <;> cases hq : s.qrSent <;> cases hh : s.headersSent <;>
      simp_all [step, srcCount, List.countP_append] <;> try assumption
  | opened u => cases u <;> simp_all [step, srcCount] <;> try assumption
  | closed c =>
    by_cases hc : c = some loggedOutCode <;>
      cases hcs : s.connectionSuccess <;> cases hh : s.headersSent <;>
      simp_all [step, srcCount, List.countP_append] <;> try assumption
  | timeout =>
    cases hcs : s.connectionSuccess <;> cases hq : s.qrSent <;>
      cases hh : s.headersSent <;>
      simp_all [step, srcCount, List.countP_append] <;> try assumption

/-- The timeout handler appends at most one write per step, and only when
the step is a firing of the 60-second timer. -/
lemma timeoutH_step_bound (s : St) (e : Ev) :
    srcCount .timeoutH (step s e)
      ≤ srcCount .timeoutH s + (if e = Ev.timeout then 1 else 0) := by
  cases e with
  | qr r =>
    cases r <;> cases hq : s.qrSent <;> cases hh : s.headersSent <;>
      simp_all [step, srcCount, List.countP_append]
  | opened u => cases u <;> simp [step, srcCount]
  | closed c =>
    by_cases hc : c = some loggedOutCode <;>
      cases hcs : s.connectionSuccess <;> cases hh : s.headersSent <;>
      simp_all [step, srcCount, List.countP_append]
  | timeout =>
    cases hcs : s.connectionSuccess <;> cases hq : s.qrSent <;>
      simp_all [step, srcCount, List.countP_append]

/-! ## The qr branch's suspension point (refined machine for C1) -/

/-- The qr branch of `connection.update` is not atomic: it sets `qrSent`
(line 69), then awaits `QRCode.toDataURL` (line 71), and only when that
promise settles does the rest of the branch run — the success `res.json`
(line 81) unconditionally, the failure 500 (line 95) only when
`!res.headersSent`.  The close branch, the open branch and the 60-second
timer callback are fully synchronous, so they can fire during that await.
`St2` extends the session state with whether such a render await is
outstanding. -/
structure St2 where
  base : St
  renderPending : Bool
  deriving DecidableEq, Repr

/-- Events of the refined machine: `qrStart` is the synchronous prefix of
the qr branch (lines 68-69 and starting the render), `qrRender` the
continuation that runs when the awaited rendering settles (lines 78-96,
carrying `some img` on success and `none` when `toDataURL` throws); the
other three are the synchronous handlers of `step`, unchanged.
Interleavings of the close, open and timeout handlers between `qrStart`
and `qrRender` are now expressible. -/
inductive Ev2
  | qrStart
  | qrRender (render : Option String)
  | opened (user : Option String)
  | closed (statusCode : Option Nat)
  | timeout
  deriving DecidableEq, Repr

def isOpenedEv2 : Ev2 → Bool
  | .opened _ => true
  | _ => false

/-- One step of the refined machine.  `qrStart` enters the branch only
while `qrSent` is clear, sets it, and leaves a render outstanding; since
every later qr event sees `qrSent`, at most one render is ever started.
A `qrRender` with no outstanding render has no continuation to run and is
a no-op, so arbitrary traces over-approximate the program's schedules.
The `opened`, `closed` and `timeout` cases are exactly `step`'s. -/
def step2 (s : St2) : Ev2 → St2
  | .qrStart =>
    if s.base.qrSent then s
    else { base := { s.base with qrSent := true }, renderPending := true }
  | .qrRender render =>
    if s.renderPending then
      match render with
      | some img =>
        { base := writeRes s.base .qrH (.okQr (mkSuccessBody img s.base.sessionId)),
          renderPending := false }
      | none =>
        if s.base.headersSent then { base := s.base, renderPending := false }
        else { base := writeRes s.base .qrH .errQrGen, renderPending := false }
    else s
  | .opened user =>
    { base := step s.base (.opened user), renderPending := s.renderPending }
  | .closed statusCode =>
    { base := step s.base (.closed statusCode), renderPending := s.renderPending }
  | .timeout =>
    { base := step s.base .timeout, renderPending := s.renderPending }

def initSt2 (sessionId : String) : St2 :=
  { base := initSt sessionId, renderPending := false }

/-- Run a sequence of refined firings from the initial state. -/
def run2 (sessionId : String) (tr : List Ev2) : St2 :=
  tr.foldl step2 (initSt2 sessionId)

/-- Number of firings of the 60-second timer in a refined trace. -/
def timeoutEvCount2 (tr : List Ev2) : Nat :=
  tr.countP (fun e => decide (e = Ev2.timeout))

@[simp] lemma step2_opened_base (s : St2) (u : Option String) :
    (step2 s (.opened u)).base = step s.base (.opened u) := rfl

@[simp] lemma step2_opened_pending (s : St2) (u : Option String) :
    (step2 s (.opened u)).renderPending = s.renderPending := rfl

@[simp] lemma step2_closed_base (s : St2) (c : Option Nat) :
    (step2 s (.closed c)).base = step s.base (.closed c) := rfl

@[simp] lemma step2_closed_pending (s : St2) (c : Option Nat) :
    (step2 s (.closed c)).renderPending = s.renderPending := rfl

@[simp] lemma step2_timeout_base (s : St2) :
    (step2 s .timeout).base = step s.base .timeout := rfl

@[simp] lemma step2_timeout_pending (s : St2) :
    (step2 s .timeout).renderPending = s.renderPending := rfl

/-- A state predicate preserved by every refined step holds after any
refined run. -/
lemma foldl_inv2 {P : St2 → Prop} (hstep : ∀ s e, P s → P (step2 s e)) :
    ∀ (tr : List Ev2) (s : St2), P s → P (tr.foldl step2 s) := by
  intro tr
  induction tr with
  | nil => intro s hs; exact hs
  | cons e tr ih => intro s hs; exact ih (step2 s e) (hstep s e hs)

/-- A refined-step-preserved predicate restricted to traces of events
satisfying Q. -/
lemma foldl_inv_cond2 {P : St2 → Prop} {Q : Ev2 → Prop}
    (hstep : ∀ s e, Q e → P s → P (step2 s e)) :
    ∀ (tr : List Ev2) (s : St2), (∀ e ∈ tr, Q e) → P s → P (tr.foldl step2 s) := by
  intro tr
  induction tr with
  | nil => intro s _ hs; exact hs
  | cons e tr ih =>
    intro s hq hs
    exact ih (step2 s e) (fun e' he' => hq e' (List.mem_cons_of_mem _ he'))
      (hstep s e (hq e (List.mem_cons_self _ _)) hs)

/-- The synchronous handlers neither touch `qrSent` nor perform a qr-branch
write. -/
lemma step_qrSent_eq (s : St) (e : Ev) (he : isQrEv e = false) :
    (step s e).qrSent = s.qrSent := by
  cases e with
  | qr r => simp [isQrEv] at he
  | opened u => cases u <;> simp [step]
  | closed c =>
    by_cases hc : c = some loggedOutCode <;>
      cases hcs : s.connectionSuccess <;> cases hh : s.headersSent <;>
      simp [step, hc, hcs, hh]
  | timeout =>
    cases hcs : s.connectionSuccess <;> cases hq : s.qrSent <;>
      simp [step, hcs, hq]

lemma step_qrH_count_eq (s : St) (e : Ev) (he : isQrEv e = false) :
    srcCount .qrH (step s e) = srcCount .qrH s := by
  cases e with
  | qr r => simp [isQrEv] at he
  | opened u => cases u <;> simp [step, srcCount]
  | closed c =>
    by_cases hc : c = some loggedOutCode <;>
      cases hcs : s.connectionSuccess <;> cases hh : s.headersSent <;>
      simp [step, srcCount, hc, hcs, hh, List.countP_append]
  | timeout =>
    cases hcs : s.connectionSuccess <;> cases hq : s.qrSent <;>
      simp [step, srcCount, hcs, hq, List.countP_append]

/-- The qr handler writes at most once even across its two phases: only
the first qr event starts a render (`qrSent` is check-and-set before the
await), and only that render's one completion can write. -/
lemma invQr2_step (s : St2) (e : Ev2)
    (h0 : s.base.qrSent = false → srcCount .qrH s.base = 0 ∧ s.renderPending = false)
    (h1 : s.renderPending = true → srcCount .qrH s.base = 0)
    (h2 : srcCount .qrH s.base ≤ 1) :
    ((step2 s e).base.qrSent = false →
      srcCount .qrH (step2 s e).base = 0 ∧ (step2 s e).renderPending = false) ∧
    ((step2 s e).renderPending = true → srcCount .qrH (step2 s e).base = 0) ∧
    srcCount .qrH (step2 s e).base ≤ 1 := by
  cases e with
  | qrStart => cases hq : s.base.qrSent <;> simp_all [step2, srcCount] <;> try tauto
  | qrRender r =>
    cases r <;> cases hp : s.renderPending <;> cases hq : s.base.qrSent <;>
      cases hh : s.base.headersSent <;>
      simp_all [step2, srcCount, List.countP_append] <;> try assumption
  | opened u =>
    rw [step2_opened_base, step2_opened_pending,
      step_qrSent_eq s.base (.opened u) rfl, step_qrH_count_eq s.base (.opened u) rfl]
    exact ⟨h0, h1, h2⟩
  | closed c =>
    rw [step2_closed_base, step2_closed_pending,
      step_qrSent_eq s.base (.closed c) rfl, step_qrH_count_eq s.base (.closed c) rfl]
    exact ⟨h0, h1, h2⟩
  | timeout =>
    rw [step2_timeout_base, step2_timeout_pending,
      step_qrSent_eq s.base .timeout rfl, step_qrH_count_eq s.base .timeout rfl]
    exact ⟨h0, h1, h2⟩

/-- The close handler's at-most-once bound carries over to the refined
machine: the qr phases never append a close write, and the synchronous
handlers are `step`'s. -/
lemma invClose2_step (s : St2) (e : Ev2)
    (h0 : s.base.headersSent = false → srcCount .closeH s.base = 0)
    (h1 : srcCount .closeH s.base ≤ 1) :
    ((step2 s e).base.headersSent = false → srcCount .closeH (step2 s e).base = 0) ∧
    srcCount .closeH (step2 s e).base ≤ 1 := by
  cases e with
  | qrStart => cases hq : s.base.qrSent <;> simp_all [step2, srcCount] <;> try tauto
  | qrRender r =>
    cases r <;> cases hp : s.renderPending <;> cases hh : s.base.headersSent <;>
      simp_all [step2, srcCount, List.countP_append] <;> try assumption
  | opened u => exact invClose_step s.base (.opened u) h0 h1
  | closed c => exact invClose_step s.base (.closed c) h0 h1
  | timeout => exact invClose_step s.base .timeout h0 h1

/-- Per refined step, the timeout handler appends at most one write, and
only on a firing of the 60-second timer. -/
lemma timeoutH_step2_bound (s : St2) (e : Ev2) :
    srcCount .timeoutH (step2 s e).base
      ≤ srcCount .timeoutH s.base + (if e = Ev2.timeout then 1 else 0) := by
  cases e with
  | qrStart => cases hq : s.base.qrSent <;> simp [step2, srcCount, hq]
  | qrRender r =>
    cases r <;> cases hp : s.renderPending <;> cases hh : s.base.headersSent <;>
      simp_all [step2, srcCount, List.countP_append]
  | opened u => simpa using timeoutH_step_bound s.base (.opened u)
  | closed c => simpa using timeoutH_step_bound s.base (.closed c)
  | timeout => simpa using timeoutH_step_bound s.base .timeout

/-- The timeout handler writes at most once per firing of the timer. -/
lemma timeoutH_bound2 :
    ∀ (tr : List Ev2) (s : St2),
      srcCount .timeoutH (tr.foldl step2 s).base
        ≤ srcCount .timeoutH s.base + timeoutEvCount2 tr := by
  intro tr
  induction tr with
  | nil => intro s; simp [timeoutEvCount2]
  | cons e tr ih =>
    intro s
    have hstep := timeoutH_step2_bound s e
    have h2 := ih (step2 s e)
    simp only [List.foldl_cons]
    by_cases he : e = Ev2.timeout
    · subst he
      have h3 : timeoutEvCount2 (Ev2.timeout :: tr) = timeoutEvCount2 tr + 1 := by
        simp [timeoutEvCount2, List.countP_cons]
      simp at hstep
      simp only [step2_timeout_base] at h2
      rw [h3]; omega
    · have h3 : timeoutEvCount2 (e :: tr) = timeoutEvCount2 tr := by
        simp [timeoutEvCount2, List.countP_cons, he]
      simp only [if_neg he] at hstep
      rw [h3]; omega

/-- While only opened events have fired, nothing is written, both guards
are clear and no render is outstanding. -/
lemma opened2_pre_step (s : St2) (e : Ev2) (hQ : isOpenedEv2 e = true)
    (hP : s.base.qrSent = false ∧ s.base.headersSent = false ∧
      s.base.written = [] ∧ s.renderPending = false) :
    (step2 s e).base.qrSent = false ∧ (step2 s e).base.headersSent = false ∧
    (step2 s e).base.written = [] ∧ (step2 s e).renderPending = false := by
  cases e with
  | opened u => cases u <;> simp_all [step2, step]
  | qrStart => simp [isOpenedEv2] at hQ
  | qrRender r => simp [isOpenedEv2] at hQ
  | closed c => simp [isOpenedEv2] at hQ
  | timeout => simp [isOpenedEv2] at hQ

/-- Opened events firing during the render await keep the state writeless
with the render still outstanding. -/
lemma opened2_mid_step (s : St2) (e : Ev2) (hQ : isOpenedEv2 e = true)
    (hP : s.base.qrSent = true ∧ s.base.headersSent = false ∧
      s.base.written = [] ∧ s.renderPending = true) :
    (step2 s e).base.qrSent = true ∧ (step2 s e).base.headersSent = false ∧
    (step2 s e).base.written = [] ∧ (step2 s e).renderPending = true := by
  cases e with
  | opened u => cases u <;> simp_all [step2, step]
  | qrStart => simp [isOpenedEv2] at hQ
  | qrRender r => simp [isOpenedEv2] at hQ
  | closed c => simp [isOpenedEv2] at hQ
  | timeout => simp [isOpenedEv2] at hQ

/-- Entering the qr branch from a clear state sets `qrSent` and leaves
the render outstanding. -/
lemma qrStart_from_clear (s : St2) (h1 : s.base.qrSent = false) :
    step2 s .qrStart = { base := { s.base with qrSent := true }, renderPending := true } := by
  simp [step2, h1]

/-- The outstanding render's completion with the response still open
performs exactly one write, fulfills the response and clears the
outstanding render. -/
lemma qrRender_first (s : St2) (r : Option String)
    (hp : s.renderPending = true) (hh : s.base.headersSent = false) :
    (step2 s (.qrRender r)).base.written.length = s.base.written.length + 1 ∧
    (step2 s (.qrRender r)).base.qrSent = s.base.qrSent ∧
    (step2 s (.qrRender r)).base.headersSent = true ∧
    (step2 s (.qrRender r)).renderPending = false := by
  cases r <;> simp [step2, hp, hh]

/-- Once the response is fulfilled with `qrSent` set and no render
outstanding, no handler ever writes to the response again. -/
lemma frozen2_run (post : List Ev2) (s : St2)
    (h1 : s.base.qrSent = true) (h2 : s.base.headersSent = true)
    (h3 : s.renderPending = false) :
    (post.foldl step2 s).base.written = s.base.written := by
  have key := foldl_inv2
    (P := fun t => t.base.qrSent = true ∧ t.base.headersSent = true ∧
      t.renderPending = false ∧ t.base.written = s.base.written)
    (fun t e ht => by
      obtain ⟨ht1, ht2, ht3, ht4⟩ := ht
      cases e with
      | qrStart => simp_all [step2]
      | qrRender r => simp_all [step2]
      | opened u => cases u <;> simp_all [step2, step]
      | closed c =>
        by_cases hc : c = some loggedOutCode <;> simp_all [step2, step]
      | timeout => cases hcs : t.base.connectionSuccess <;> simp_all [step2, step])
    post s ⟨h1, h2, h3, rfl⟩
  exact key.2.2.2

/-! ## C1 -/

/-- C1 counterexample: the claim says exactly one of the qr, close, and
timeout handlers writes to the response, in every order.  Two realizable
orders refute it.  First, "connection closes before any pairing code,
then the 60-second timer fires": the close handler writes the 500 failure
and the timeout handler — whose guard checks only `connectionSuccess` and
`qrSent`, not `res.headersSent` — writes a second (408) response.
Second, on the refined machine that exposes the qr branch's await: the
first qr event sets `qrSent` and starts the render, the close handler
fires during the await and (seeing `headersSent` still false) writes the
500, and when the render settles the resumed qr handler performs the
unconditional success `res.json` — a second write even though the qr
event came first. -/
theorem C1_counterexample :
    (run "sid" [Ev.closed none, Ev.timeout]).written
      = [(Src.closeH, Resp.errClosed), (Src.timeoutH, Resp.errTimeout)] ∧
    (run2 "sid" [Ev2.qrStart, Ev2.closed none, Ev2.qrRender (some "img")]).base.written
      = [(Src.closeH, Resp.errClosed),
         (Src.qrH, Resp.okQr (mkSuccessBody "img" "sid"))] :=
  ⟨by decide, by decide⟩

/-- C1 (amended): over the refined machine that exposes the qr branch's
await, each of the three handlers writes to the response at most once per
session — the qr handler across its two phases (only the first qr event
starts a render, and only that render's one completion can write), the
close handler via its `res.headersSent` check, and the timeout handler
because its timer fires at most once.  When the first pairing-code event
both arrives and completes its render and response write before any close
event and before the 60-second timeout (at most further open events in
between), the response is fulfilled exactly once over the whole session.
Exactly-once does not hold for other orders: a close-handler failure
response followed by the timeout, or a close firing during the first
render's await followed by the render's completion, produces a second
write, because the timeout 408 write and the QR success write do not
check `res.headersSent`. -/
theorem C1_amended_response_writes (sid : String) (tr : List Ev2) :
    srcCount .qrH (run2 sid tr).base ≤ 1 ∧
    srcCount .closeH (run2 sid tr).base ≤ 1 ∧
    (timeoutEvCount2 tr ≤ 1 → srcCount .timeoutH (run2 sid tr).base ≤ 1) ∧
    (∀ (pre mid : List Ev2) (r : Option String) (post : List Ev2),
      tr = pre ++ Ev2.qrStart :: (mid ++ Ev2.qrRender r :: post) →
      (∀ e ∈ pre, isOpenedEv2 e = true) → (∀ e ∈ mid, isOpenedEv2 e = true) →
      (run2 sid tr).base.written.length = 1) := by
  refine ⟨?_, ?_, ?_, ?_⟩
  · exact (foldl_inv2
      (P := fun t => (t.base.qrSent = false →
          srcCount .qrH t.base = 0 ∧ t.renderPending = false) ∧
        (t.renderPending = true → srcCount .qrH t.base = 0) ∧
        srcCount .qrH t.base ≤ 1)
      (fun s e h => invQr2_step s e h.1 h.2.1 h.2.2) tr (initSt2 sid)
      (by simp [initSt2, initSt, srcCount])).2.2
  · exact (foldl_inv2
      (P := fun t => (t.base.headersSent = false → srcCount .closeH t.base = 0) ∧
        srcCount .closeH t.base ≤ 1)
      (fun s e h => invClose2_step s e h.1 h.2) tr (initSt2 sid)
      (by simp [initSt2, initSt, srcCount])).2
  · intro hto
    have hb := timeoutH_bound2 tr (initSt2 sid)
    have h0 : srcCount .timeoutH (initSt2 sid).base = 0 := by
      simp [initSt2, initSt, srcCount]
    simp only [run2]
    omega
  · rintro pre mid r post rfl hpre hmid
    have hps := foldl_inv_cond2
      (P := fun t => t.base.qrSent = false ∧ t.base.headersSent = false ∧
        t.base.written = [] ∧ t.renderPending = false)
      (Q := fun e => isOpenedEv2 e = true) opened2_pre_step pre (initSt2 sid) hpre
      (by simp [initSt2, initSt])
    have hstart := qrStart_from_clear (pre.foldl step2 (initSt2 sid)) hps.1
    have hmidinv := foldl_inv_cond2
      (P := fun t => t.base.qrSent = true ∧ t.base.headersSent = false ∧
        t.base.written = [] ∧ t.renderPending = true)
      (Q := fun e => isOpenedEv2 e = true) opened2_mid_step mid
      (step2 (pre.foldl step2 (initSt2 sid)) .qrStart) hmid
      (by rw [hstart]; exact ⟨rfl, hps.2.1, hps.2.2.1, rfl⟩)
    have hrender := qrRender_first
      (mid.foldl step2 (step2 (pre.foldl step2 (initSt2 sid)) .qrStart)) r
      hmidinv.2.2.2 hmidinv.2.1
    have hfz := frozen2_run post
      (step2 (mid.foldl step2 (step2 (pre.foldl step2 (initSt2 sid)) .qrStart)) (.qrRender r))
      (hrender.2.1.trans hmidinv.1) hrender.2.2.1 hrender.2.2.2
    have hrw : run2 sid (pre ++ Ev2.qrStart :: (mid ++ Ev2.qrRender r :: post))
        = post.foldl step2
            (step2 (mid.foldl step2 (step2 (pre.foldl step2 (initSt2 sid)) .qrStart))
              (.qrRender r)) := by
      simp [run2, List.foldl_append]
    rw [hrw, hfz, hrender.1, hmidinv.2.2.1]
    rfl

theorem C1_amended_response_writes_witness :
    (run2 "s" [Ev2.qrStart, Ev2.qrRender (some "img"), Ev2.closed none, Ev2.timeout]).base.written.length = 1 :=
  (C1_amended_response_writes "s"
      [Ev2.qrStart, Ev2.qrRender (some "img"), Ev2.closed none, Ev2.timeout]).2.2.2
    [] [] (some "img") [Ev2.closed none, Ev2.timeout] rfl (by simp) (by simp)

/-! ## C4 -/

/-- The 200 success response is written only by the qr handler while
`qrSent` is unset, so at most one QR is ever rendered into the response. -/
lemma invOk_step (s : St) (e : Ev)
    (h0 : s.qrSent = false → okCount s = 0) (h1 : okCount s ≤ 1) :
    ((step s e).qrSent = false → okCount (step s e) = 0) ∧ okCount (step s e) ≤ 1 := by
  cases e with
  | qr r =>
    cases r <;> cases hq : s.qrSent <;> cases hh : s.headersSent <;>
      simp_all [step, okCount, okResp, List.countP_append] <;> try assumption
  | opened u => cases u <;> simp_all [step, okCount]
  | closed c =>
    by_cases hc : c = some loggedOutCode <;>
      cases hcs : s.connectionSuccess <;> cases hh : s.headersSent <;>
      simp_all [step, okCount, okResp, List.countP_append] <;> try assumption
  | timeout =>
    cases hcs : s.connectionSuccess <;> cases hq : s.qrSent <;>
      simp_all [step, okCount, okResp, List.countP_append] <;> try assumption

/-- C4: in every trace at most one QR success response is ever written;
a qr event arriving while `qrSent` is already set is a complete no-op
(no re-response, no state change); and the first qr event with a
successful rendering sets the flag and fulfills the response with the
`{success, qr, sessionId, message, instructions}` body. -/
theorem C4_single_qr_response :
    (∀ sid tr, okCount (run sid tr) ≤ 1) ∧
    (∀ (s : St) (r : Option String), s.qrSent = true → step s (.qr r) = s) ∧
    (∀ (s : St) (img : String), s.qrSent = false →
      step s (.qr (some img)) =
        writeRes { s with qrSent := true } .qrH (.okQr (mkSuccessBody img s.sessionId))) := by
  refine ⟨fun sid tr => ?_, fun s r h => ?_, fun s img h => ?_⟩
  · exact (foldl_inv
      (P := fun t => (t.qrSent = false → okCount t = 0) ∧ okCount t ≤ 1)
      (fun s e hp => invOk_step s e hp.1 hp.2) tr (initSt sid)
      (by simp [initSt, okCount])).2
  · simp [step, h]
  · simp [step, h]

theorem C4_single_qr_response_witness :
    okCount (run "s" [Ev.qr (some "i"), Ev.qr (some "j"), Ev.qr none]) ≤ 1 ∧
    step (step (initSt "s") (.qr (some "i"))) (.qr (some "j"))
      = step (initSt "s") (.qr (some "i")) :=
  ⟨C4_single_qr_response.1 "s" [Ev.qr (some "i"), Ev.qr (some "j"), Ev.qr none],
   C4_single_qr_response.2.1 (step (initSt "s") (.qr (some "i"))) (some "j") (by decide)⟩

/-! ## C10 -/

/-- Before any qr event has fired, `qrSent` is clear and no QR success
response has been written. -/
lemma notQr_pre_step (s : St) (e : Ev) (hQ : isQrEv e = false)
    (hP : s.qrSent = false ∧ okCount s = 0) :
    (step s e).qrSent = false ∧ okCount (step s e) = 0 := by
  obtain ⟨hPq, hPo⟩ := hP
  cases e with
  | qr r => simp [isQrEv] at hQ
  | opened u => cases u <;> simp_all [step, okCount]
  | closed c =>
    by_cases hc : c = some loggedOutCode <;>
      cases hcs : s.connectionSuccess <;> cases hh : s.headersSent <;>
      simp_all [step, okCount, okResp, List.countP_append] <;> try assumption
  | timeout =>
    cases hcs : s.connectionSuccess <;>
      simp_all [step, okCount, okResp, List.countP_append] <;> try assumption

/-- Once `qrSent` is set with no QR success response written, no QR
success response can ever be written. -/
lemma okFrozen_step (s : St) (e : Ev) (hP : s.qrSent = true ∧ okCount s = 0) :
    (step s e).qrSent = true ∧ okCount (step s e) = 0 := by
  obtain ⟨hPq, hPo⟩ := hP
  cases e with
  | qr r =>
    have hs : step s (.qr r) = s := by simp [step, hPq]
    rw [hs]; exact ⟨hPq, hPo⟩
  | opened u => cases u <;> simp_all [step, okCount]
  | closed c =>
    by_cases hc : c = some loggedOutCode <;>
      cases hcs : s.connectionSuccess <;> cases hh : s.headersSent <;>
      simp_all [step, okCount, okResp, List.countP_append] <;> try assumption
  | timeout =>
    cases hcs : s.connectionSuccess <;> cases hq : s.qrSent <;>
      simp_all [step, okCount, okResp, List.countP_append] <;> try assumption

/-- C10: if the first pairing-code event's rendering throws, then —
because `qrSent` was set before rendering was attempted — no QR success
response is ever written in the whole remaining session, whatever later
pairing-code events arrive; and if the response was still open at that
point, the handler writes the 500 rendering-failure error. -/
theorem C10_render_failure (sid : String) (pre post : List Ev)
    (hpre : ∀ e ∈ pre, isQrEv e = false) :
    okCount (run sid (pre ++ Ev.qr none :: post)) = 0 ∧
    ((run sid pre).headersSent = false →
      (run sid (pre ++ [Ev.qr none])).written
        = (run sid pre).written ++ [(Src.qrH, Resp.errQrGen)]) ∧
    Resp.errQrGen.status = 500 := by
  obtain ⟨hq0, ho0⟩ := foldl_inv_cond (P := fun t => t.qrSent = false ∧ okCount t = 0)
    (Q := fun e => isQrEv e = false) notQr_pre_step pre (initSt sid) hpre
    (by simp [initSt, okCount])
  refine ⟨?_, fun hopen => ?_, rfl⟩
  · have h1 : (step (pre.foldl step (initSt sid)) (.qr none)).qrSent = true ∧
        okCount (step (pre.foldl step (initSt sid)) (.qr none)) = 0 := by
      cases hh : (pre.foldl step (initSt sid)).headersSent <;>
        simp_all [step, okCount, okResp, List.countP_append] <;> try assumption
    have hf := foldl_inv (P := fun t => t.qrSent = true ∧ okCount t = 0)
      okFrozen_step post _ h1
    have hrw : run sid (pre ++ Ev.qr none :: post)
        = post.foldl step (step (pre.foldl step (initSt sid)) (.qr none)) := by
      simp [run, List.foldl_append]
    rw [hrw]
    exact hf.2
  · have hrw : run sid (pre ++ [Ev.qr none])
        = step (run sid pre) (.qr none) := by
      simp [run, List.foldl_append]
    rw [hrw]
    simp only [run] at hopen ⊢
    simp [step, hq0, hopen]

theorem C10_render_failure_witness :
    okCount (run "s" ([] ++ Ev.qr none :: [Ev.qr (some "img"), Ev.closed none])) = 0 ∧
    (run "s" ([] ++ [Ev.qr none])).written = [(Src.qrH, Resp.errQrGen)] := by
  have h := C10_render_failure "s" [] [Ev.qr (some "img"), Ev.closed none] (by simp)
  exact ⟨h.1, by simpa using h.2.1 (by decide)⟩

/-! ## C8 -/

/-- No event other than connection-established schedules an onboarding
call. -/
lemma step_welcome_eq (s : St) (e : Ev) (he : isOpenedEv e = false) :
    (step s e).welcome = s.welcome := by
  cases e with
  | qr r =>
    cases r <;> cases h1 : s.qrSent <;> cases h2 : s.headersSent <;>
      simp [step, h1, h2]
  | opened u => simp [isOpenedEv] at he
  | closed c =>
    by_cases hc : c = some loggedOutCode <;>
      cases h1 : s.connectionSuccess <;> cases h2 : s.headersSent <;>
      simp [step, hc, h1, h2]
  | timeout =>
    cases h1 : s.connectionSuccess <;> cases h2 : s.qrSent <;>
      simp [step, h1, h2]

/-- No event other than connection-established changes the paired flag. -/
lemma step_connSuccess_eq (s : St) (e : Ev) (he : isOpenedEv e = false) :
    (step s e).connectionSuccess = s.connectionSuccess := by
  cases e with
  | qr r =>
    cases r <;> cases h1 : s.qrSent <;> cases h2 : s.headersSent <;>
      simp [step, h1, h2]
  | opened u => simp [isOpenedEv] at he
  | closed c =>
    by_cases hc : c = some loggedOutCode <;>
      cases h1 : s.connectionSuccess <;> cases h2 : s.headersSent <;>
      simp [step, hc, h1, h2]
  | timeout =>
    cases h1 : s.connectionSuccess <;> cases h2 : s.qrSent <;>
      simp [step, h1, h2]

/-- Onboarding calls are scheduled only with the paired flag set. -/
lemma welcome_inv_step (s : St) (e : Ev)
    (h : s.welcome ≠ [] → s.connectionSuccess = true) :
    (step s e).welcome ≠ [] → (step s e).connectionSuccess = true := by
  cases e with
  | opened u => intro _; cases u <;> simp [step]
  | qr r =>
    rw [step_welcome_eq s (.qr r) rfl, step_connSuccess_eq s (.qr r) rfl]; exact h
  | closed c =>
    rw [step_welcome_eq s (.closed c) rfl, step_connSuccess_eq s (.closed c) rfl]; exact h
  | timeout =>
    rw [step_welcome_eq s .timeout rfl, step_connSuccess_eq s .timeout rfl]; exact h

/-- C8: onboarding is invoked only after the paired flag is set and
aborts before any send when no identity is resolvable; the sends it
attempts are always an in-order prefix of (document when `creds.json`
exists) → image → audio → text; and when every send succeeds the whole
sequence is attempted in that order with no error — in particular the
absence of `creds.json` is tolerated, the pipeline proceeding to the
remaining sends and scheduling cleanup normally. -/
theorem C8_pipeline_order :
    (∀ sid tr, (run sid tr).welcome ≠ [] → (run sid tr).connectionSuccess = true) ∧
    (∀ fb su creds sendOk, jidResolve fb su = none →
      (sendWelcomeMessages fb su creds sendOk).attempted = []) ∧
    (∀ fb su creds sendOk,
      (sendWelcomeMessages fb su creds sendOk).attempted <+: welcomeSequence creds) ∧
    (∀ fb su (j : String) creds sendOk, jidResolve fb su = some j →
      (∀ p, sendOk p = true) →
      (sendWelcomeMessages fb su creds sendOk).attempted = welcomeSequence creds ∧
      (sendWelcomeMessages fb su creds sendOk).errorLogged = false ∧
      (sendWelcomeMessages fb su creds sendOk).cleanupAfterMs = some cleanupDelayMs ∧
      (sendWelcomeMessages fb su creds sendOk).usedJid = some j) := by
  refine ⟨fun sid tr => ?_, fun fb su creds sendOk h => ?_, fun fb su creds sendOk => ?_,
    fun fb su j creds sendOk hj hall => ?_⟩
  · exact foldl_inv welcome_inv_step tr (initSt sid) (by simp [initSt])
  · simp [sendWelcomeMessages, h]
  · cases hj : jidResolve fb su with
    | none => simp [sendWelcomeMessages, hj]
    | some j =>
      cases creds <;>
        by_cases h1 : sendOk .document = true <;>
        by_cases h2 : sendOk .image = true <;>
        by_cases h3 : sendOk .audio = true <;>
        by_cases h4 : sendOk .text = true <;>
        simp_all [sendWelcomeMessages, welcomeSequence]
  · cases creds <;> simp [sendWelcomeMessages, welcomeSequence, hj, hall]

theorem C8_pipeline_order_witness :
    (sendWelcomeMessages (some "u@s.whatsapp.net") none false (fun _ => true)).attempted
      = welcomeSequence false ∧
    (sendWelcomeMessages (some "u@s.whatsapp.net") none false (fun _ => true)).cleanupAfterMs
      = some cleanupDelayMs :=
  ⟨(C8_pipeline_order.2.2.2 (some "u@s.whatsapp.net") none "u@s.whatsapp.net" false
      (fun _ => true) rfl (fun _ => rfl)).1,
   (C8_pipeline_order.2.2.2 (some "u@s.whatsapp.net") none "u@s.whatsapp.net" false
      (fun _ => true) rfl (fun _ => rfl)).2.2.1⟩

end QRRoute
